import Mathlib

/-
Verification development for the audio2tonie repository (Rust).

The definitions below are a shallow embedding of the code in
src/utils.rs (crc32), src/opus_packet.rs (OpusPacket),
src/ogg_page.rs (OggPage and the padding machinery) and
src/converter.rs (resize_pages, check_identification_header,
fix_tonie_header).  Bytes are modelled as `Nat` (kept below 256 by
construction), machine integers as `Nat`/`Int` with explicit wrapping
where the Rust code can wrap, fallible code returns `Except`, and
Rust panics (asserts, out-of-bounds indexing, arithmetic overflow in
debug builds) are modelled as a dedicated error class.
-/

namespace Audio2Tonie

/-- Graceful Rust errors (anyhow / io errors) raised by the code. -/
inductive RustError where
  | segmentsEmpty
  | noPacketStart
  | paddingImpossible
  | tooManySegments
  | onlyCodeThreePackets
  | packetAlreadyPadded
  | dataTooShortPadding
  | invalidOpusFile
  | onlyStereoSupported
  | wrongSampleRate
  | unexpectedPaddingValue
deriving DecidableEq

/-- Rust panics: failed asserts/expects, out-of-bounds indexing,
debug-mode arithmetic overflow. -/
inductive RustPanic where
  | pageAlreadyTooLarge
  | indexOutOfBounds
  | subtractOverflow
  | expectNoPacketStart
  | expectIndexUnderflow
  | assertFirstPacket
  | assertPageSize
  | assertLeftoverData
deriving DecidableEq

/-- Combined failure type of the embedding; `outOfFuel` is the fuel
artifact of the embedding of general recursion. -/
inductive PErr where
  | rustError (e : RustError)
  | rustPanic (p : RustPanic)
  | outOfFuel
deriving DecidableEq

/-! ## CRC-32 (src/utils.rs) -/

/-- One shift step of the Ogg CRC: shift left by one (u32, wrapping)
and XOR the polynomial 0x04C11DB7 when the high bit was set. -/
def crcStep (crc : Nat) : Nat :=
  ((crc <<< 1) % 2 ^ 32) ^^^ (if crc &&& 0x80000000 ≠ 0 then 0x04C11DB7 else 0)

/-- Entry `i` of the 256-entry table from src/utils.rs: start from
`i << 24` and apply eight shift steps. -/
def crcTableEntry (i : Nat) : Nat :=
  crcStep^[8] ((i <<< 24) % 2 ^ 32)

/-- `crc32` from src/utils.rs: table-driven, initial value 0, no final
XOR. -/
def crc32 (data : List Nat) : Nat :=
  data.foldl
    (fun crc byte =>
      ((crc &&& 0xFFFFFF) <<< 8) ^^^ crcTableEntry (((crc >>> 24) ^^^ byte) &&& 0xFF))
    0

/-! ## Opus packet (src/opus_packet.rs) -/

/-- `OpusPacket`: one Ogg segment's bytes plus derived attributes.
`framepacking` is the i8 field (−1 when unparsed), `padding` the cached
padding attribute (`None` when parsing failed or the packet was never
parsed), `size` the i32 segment-table size. -/
structure OpusPacket where
  config_value : Option Nat := none
  stereo : Option Nat := none
  framepacking : Int := 0
  padding : Option Nat := none
  frame_count : Option Nat := none
  granule : Nat := 0
  size : Int := 0
  data : List Nat := []
  spanning_packet : Bool := false
  first_packet : Bool := false
deriving DecidableEq, Inhabited

/-- `OpusPacket::convert_to_framepacking_three`: set the TOC byte's low
two bits and insert the frame-count byte (OR 0x80 when the previous
framepacking was 2).  Indexing `data[0]` panics on empty data. -/
def OpusPacket.convert_to_framepacking_three (p : OpusPacket) : Except PErr OpusPacket :=
  if p.framepacking = 3 then .ok p
  else
    match p.data with
    | [] => .error (.rustPanic .indexOutOfBounds)
    | b0 :: rest =>
      let toc_byte := b0 ||| 0b11
      let fcb := p.frame_count.getD 0 % 256
      let frame_count_byte := if p.framepacking = 2 then fcb ||| 0b10000000 else fcb
      .ok { p with data := toc_byte :: frame_count_byte :: rest, framepacking := 3 }

/-- The padding-count byte sequence of `OpusPacket::set_pad_count`:
while `count > 254` emit 0xFF and subtract 254, then emit the rest.
The first argument is structural fuel; the loop runs at most `count`
times, so `count` itself is enough fuel. -/
def padCountBytesAux : Nat → Nat → List Nat
  | 0, v => [v]
  | fuel + 1, v => if 254 < v then 0xFF :: padCountBytesAux fuel (v - 254) else [v]

def padCountBytes (count : Nat) : List Nat := padCountBytesAux count count

/-- `OpusPacket::set_pad_count`: only code-3 packets whose cached
padding attribute is exactly `Some 0` may receive a pad count; the
count bytes are inserted right after the frame-count byte, which gets
its padding-present bit (0x40) set.  Indexing `data[1]` panics when the
data is shorter than two bytes. -/
def OpusPacket.set_pad_count (p : OpusPacket) (count : Nat) : Except PErr OpusPacket :=
  if p.framepacking ≠ 3 then .error (.rustError .onlyCodeThreePackets)
  else if p.padding ≠ some 0 then .error (.rustError .packetAlreadyPadded)
  else
    match p.data with
    | b0 :: b1 :: rest =>
      .ok { p with data := b0 :: (b1 ||| 0b01000000) :: (padCountBytes count ++ rest) }
    | _ => .error (.rustPanic .indexOutOfBounds)

/-- The `while padding == 255` loop of `OpusPacket::get_padding`: read
the next byte, add `byte − 1` (u8 subtraction, which panics on 0 in a
debug build) and continue while the byte read was 255. -/
def paddingLoop : Nat → List Nat → Nat → Except PErr Nat
  | padding, [], total =>
    if padding = 255 then .error (.rustError .dataTooShortPadding) else .ok total
  | padding, b :: rest, total =>
    if padding = 255 then
      if b = 0 then .error (.rustPanic .subtractOverflow)
      else paddingLoop b rest (total + (b - 1))
    else .ok total

/-- `OpusPacket::get_padding`: 0 for non-code-3 packets; otherwise
require at least 3 data bytes, test bit 6 of the second byte, and when
set decode the padding count starting from the third byte. -/
def OpusPacket.get_padding (p : OpusPacket) : Except PErr Nat :=
  if p.framepacking ≠ 3 then .ok 0
  else
    match p.data with
    | _b0 :: b1 :: b2 :: rest =>
      if (b1 >>> 6) &&& 1 = 0 then .ok 0
      else paddingLoop b2 rest b2
    | _ => .error (.rustError .dataTooShortPadding)

/-! ## Ogg page (src/ogg_page.rs) -/

/-- `OggPage` header fields plus the segment list. -/
structure OggPage where
  version : Nat := 0
  page_type : Nat := 0
  granule_position : Nat := 0
  serial_no : Nat := 0
  page_no : Nat := 0
  checksum : Nat := 0
  segment_count : Nat := 0
  segments : List OpusPacket := []
deriving DecidableEq, Inhabited

/-- i32 → u8 cast (`segment.size as u8`). -/
def u8OfI32 (n : Int) : Nat := (n % 256).toNat

/-- Little-endian byte serialization of a `k`-byte unsigned integer. -/
def leBytes (n k : Nat) : List Nat :=
  (List.range k).map fun i => (n >>> (8 * i)) &&& 0xFF

/-- The header-and-segment-table bytes assembled by
`OggPage::write_page` before the segment payloads: "OggS" magic,
version, page type, granule position (u64 LE), serial number, page
number and checksum (u32 LE), segment count, then one size byte per
segment. -/
def OggPage.headerAndTableBytes (p : OggPage) : List Nat :=
  [0x4F, 0x67, 0x67, 0x53] ++ [p.version % 256, p.page_type % 256]
    ++ leBytes p.granule_position 8 ++ leBytes p.serial_no 4 ++ leBytes p.page_no 4
    ++ leBytes p.checksum 4 ++ [p.segment_count % 256]
    ++ p.segments.map (fun s => u8OfI32 s.size)

/-- `OggPage::write_page` (src/ogg_page.rs): returns the pair
(bytes written to the output, bytes fed to the SHA-1 hasher).  The
hasher update covers only the header-and-segment-table buffer; the
per-segment hasher update is commented out in the source
(`//TODO fix this!`), so segment payloads are written but not hashed. -/
def OggPage.write_page (p : OggPage) : List Nat × List Nat :=
  let data := p.headerAndTableBytes
  (data ++ (p.segments.map (·.data)).flatten, data)

/-- `OggPage::calc_checksum`: CRC over the serialized page with the
checksum field zeroed. -/
def OggPage.calc_checksum (p : OggPage) : Nat :=
  crc32 ([0x4F, 0x67, 0x67, 0x53] ++ [p.version % 256, p.page_type % 256]
    ++ leBytes p.granule_position 8 ++ leBytes p.serial_no 4 ++ leBytes p.page_no 4
    ++ leBytes 0 4 ++ [p.segment_count % 256]
    ++ p.segments.map (fun s => u8OfI32 s.size)
    ++ (p.segments.map (·.data)).flatten)

/-- `OggPage::get_page_size`: 27 header bytes plus one table byte and
the payload bytes of every segment. -/
def OggPage.get_page_size (p : OggPage) : Nat :=
  27 + p.segments.length + (p.segments.map (·.data.length)).sum

/-- Tail sum of `OggPage::get_size_of_first_opus_packet`: keep adding
segment sizes while the previously read size was 255. -/
def fpsGo : Int → List OpusPacket → Int
  | _, [] => 0
  | segSize, s :: rest => if segSize == 255 then s.size + fpsGo s.size rest else 0

/-- `OggPage::get_size_of_first_opus_packet` (result cast as usize). -/
def OggPage.get_size_of_first_opus_packet (p : OggPage) : Nat :=
  match p.segments with
  | [] => 0
  | s0 :: rest => (s0.size + fpsGo s0.size rest).toNat

/-- Tail count of `OggPage::get_segment_count_of_first_opus_packet`. -/
def fpcGo : Int → List OpusPacket → Nat
  | _, [] => 0
  | segSize, s :: rest => if segSize == 255 then 1 + fpcGo s.size rest else 0

/-- `OggPage::get_segment_count_of_first_opus_packet`. -/
def OggPage.get_segment_count_of_first_opus_packet (p : OggPage) : Nat :=
  match p.segments with
  | [] => 0
  | s0 :: rest => 1 + fpcGo s0.size rest

/-- Continuation-segment sum of `OggPage::get_opus_packet_size`. -/
def packetSizeCont : List OpusPacket → Nat
  | [] => 0
  | s :: rest => if s.first_packet then 0 else s.size.toNat + packetSizeCont rest

/-- `OggPage::get_opus_packet_size(seg_start)`: the head segment's data
length plus the sizes of following non-first-packet segments.  Callers
only invoke it with `seg_start` in range. -/
def OggPage.get_opus_packet_size (p : OggPage) (seg_start : Nat) : Nat :=
  match p.segments.drop seg_start with
  | [] => 0
  | s :: rest => s.data.length + packetSizeCont rest

/-- Continuation-segment count of
`OggPage::get_segment_count_of_packet_at`. -/
def packetCountCont : List OpusPacket → Nat
  | [] => 0
  | s :: rest => if s.first_packet then 0 else 1 + packetCountCont rest

/-- `OggPage::get_segment_count_of_packet_at(seg_start)`. -/
def OggPage.get_segment_count_of_packet_at (p : OggPage) (seg_start : Nat) : Nat :=
  1 + packetCountCont (p.segments.drop (seg_start + 1))

/-- `OggPage::insert_empty_segment`: insert a fresh empty segment after
`index_after` (appending when the position is at or past the end). -/
def OggPage.insert_empty_segment (p : OggPage) (index_after : Nat)
    (spanning first : Bool) : OggPage :=
  let seg : OpusPacket :=
    { size := 0, data := [], spanning_packet := spanning, first_packet := first }
  let idx := index_after + 1
  if p.segments.length ≤ idx then { p with segments := p.segments ++ [seg] }
  else { p with segments := p.segments.take idx ++ seg :: p.segments.drop idx }

/-- The insertion loop of `OggPage::redistribute_packet_data_at`:
insert `remaining` empty segments starting after `base`, marking all
but the last inserted segment as spanning. -/
def insertSegsLoop : Nat → OggPage → Nat → OggPage
  | _, p, 0 => p
  | base, p, k + 1 =>
    insertSegsLoop (base + 1) (p.insert_empty_segment base (k != 0) false) k

/-- The chunk-assignment loop of
`OggPage::redistribute_packet_data_at`: write successive ≤255-byte
chunks of `full` into the segments starting at `idx`. -/
def redistributeLoop : List OpusPacket → Nat → List Nat → Nat → List OpusPacket
  | segs, _, _, 0 => segs
  | segs, idx, full, n + 1 =>
    let chunk := full.take 255
    redistributeLoop
      (segs.set idx { segs.getD idx default with data := chunk, size := (chunk.length : Int) })
      (idx + 1) (full.drop 255) n

/-- `OggPage::redistribute_packet_data_at`: concatenate the packet's
segment data, append `pad_count` zero bytes, and split back into
≤255-byte chunks (an extra zero-length chunk on exact multiples of
255), creating segment slots as needed.  The usize subtraction
`needed_seg_count - seg_count` panics in a debug build when negative,
and the trailing `assert!(full_data.is_empty())` panics when data is
left over. -/
def OggPage.redistribute_packet_data_at (p : OggPage) (seg_start pad_count : Nat) :
    Except PErr OggPage :=
  let seg_count := p.get_segment_count_of_packet_at seg_start
  let full_data :=
    (((p.segments.drop seg_start).take seg_count).map (·.data)).flatten
      ++ List.replicate pad_count 0
  let size : Nat := full_data.length
  if size < 255 then
    let s' := { p.segments.getD seg_start default with size := (size : Int), data := full_data }
    .ok { p with segments := p.segments.set seg_start s' }
  else
    let needed_seg_count : Nat := if size % 255 = 0 then size / 255 + 1 else (size + 254) / 255
    if needed_seg_count < seg_count then .error (.rustPanic .subtractOverflow)
    else
      let p1 := insertSegsLoop (seg_start + seg_count) p (needed_seg_count - seg_count)
      let segs' := redistributeLoop p1.segments seg_start full_data needed_seg_count
      if size ≤ 255 * needed_seg_count then .ok { p1 with segments := segs' }
      else .error (.rustPanic .assertLeftoverData)

/-- `OggPage::convert_packet_to_framepacking_three_and_pad`: assert the
segment starts a packet, convert it to code 3, optionally set the pad
count, then redistribute the packet's data with `count` zero bytes. -/
def OggPage.convert_packet_to_framepacking_three_and_pad (p : OggPage) (seg_start : Nat)
    (pad : Bool) (count : Nat) : Except PErr OggPage := do
  match p.segments.get? seg_start with
  | none => .error (.rustPanic .indexOutOfBounds)
  | some s =>
    if ¬ s.first_packet then .error (.rustPanic .assertFirstPacket)
    else do
      let s1 ← s.convert_to_framepacking_three
      let p1 := { p with segments := p.segments.set seg_start s1 }
      let p2 ←
        if pad then do
          let s2 ← s1.set_pad_count count
          pure { p1 with segments := p1.segments.set seg_start s2 }
        else pure p1
      p2.redistribute_packet_data_at seg_start count

/-- Sentinel return values of `calc_actual_padding_value`. -/
def ONLY_CONVERT_FRAMEPACKING : Int := -1
def OTHER_PACKET_NEEDED : Int := -2
def DO_NOTHING : Int := -3
def TOO_MANY_SEGMENTS : Int := -4

/-- The `new_segments_needed` counting loop of
`calc_actual_padding_value`: while `tmp ≥ 0` subtract 256 and count.
The first argument is structural fuel; `tmp.toNat + 1` iterations
always suffice. -/
def newSegsLoopAux : Nat → Int → Nat → Nat
  | 0, _, acc => acc
  | fuel + 1, tmp, acc =>
    if 0 ≤ tmp then newSegsLoopAux fuel (tmp - 256) (acc + 1) else acc

def newSegsLoop (tmp : Int) : Nat := newSegsLoopAux (tmp.toNat + 1) tmp 0

/-- Exact model of the `(x as f32 / 254.0).ceil() as i32` expressions:
for the i32 magnitudes reachable here the f32 computation is exact, so
this is the mathematical ceiling of `n / 254`. -/
def ceilDiv254 (n : Int) : Int :=
  if 0 ≤ n then ((n.toNat + 253) / 254 : Nat) else -(((-n).toNat / 254 : Nat))

/-- `OggPage::calc_actual_padding_value` (src/ogg_page.rs): decide how
the final packet at `seg_start` must be grown by `bytes_needed` bytes,
returning a sentinel or the exact packet-level pad count.  The leading
`assert!(bytes_needed >= 0, "Page is already too large! ...")` panics
on negative shortfalls.  The `%` operands are non-negative on every
reachable input, where i32 remainder and `Int.emod` agree. -/
def OggPage.calc_actual_padding_value (p : OggPage) (seg_start : Nat) (bytes_needed : Int) :
    Except PErr Int :=
  if bytes_needed < 0 then .error (.rustPanic .pageAlreadyTooLarge)
  else
    let seg_end := seg_start + p.get_segment_count_of_packet_at seg_start
    let size_of_last_segment : Int := (p.segments.getD (seg_end - 1) default).size
    let convert_framepacking_needed := (p.segments.getD seg_start default).framepacking ≠ 3
    if bytes_needed = 0 then .ok DO_NOTHING
    else if (bytes_needed + size_of_last_segment) % 255 = 0 then .ok OTHER_PACKET_NEEDED
    else if bytes_needed = 1 then
      .ok (if convert_framepacking_needed then ONLY_CONVERT_FRAMEPACKING else 0)
    else
      let new_segments_needed : Int :=
        if 255 ≤ bytes_needed + size_of_last_segment then
          (newSegsLoop (bytes_needed + size_of_last_segment - 255) : Int)
        else 0
      if 255 < new_segments_needed + p.segments.length then .ok TOO_MANY_SEGMENTS
      else if (bytes_needed + size_of_last_segment) % 255 = new_segments_needed - 1 then
        .ok OTHER_PACKET_NEEDED
      else
        let pbn := bytes_needed - new_segments_needed
        if pbn = 1 then
          .ok (if convert_framepacking_needed then ONLY_CONVERT_FRAMEPACKING else 0)
        else
          let pbn := if convert_framepacking_needed then pbn - 1 else pbn
          let pbn := pbn - 1
          let size_of_padding_count_data := max 1 (ceilDiv254 pbn)
          let check_size := ceilDiv254 (pbn - size_of_padding_count_data + 1)
          if check_size ≠ size_of_padding_count_data then .ok OTHER_PACKET_NEEDED
          else .ok (pbn - size_of_padding_count_data + 1)

/-- The candidate test of `OggPage::pad_one_byte`: the segment begins a
packet, its cached padding attribute is `None`, and the packet size
modulo 255 is below 254. -/
def padOneByteCandidate (p : OggPage) (i : Nat) : Bool :=
  (p.segments.getD i default).first_packet
    && (p.segments.getD i default).padding matches none
    && p.get_opus_packet_size i % 255 < 254

/-- The scan loop of `OggPage::pad_one_byte`, written as it is in
src/ogg_page.rs: it BREAKS at the first index whose candidate test
FAILS and errors when the index runs past the end (i.e. when every
segment passes the test).  The first argument is the number of
segments still in range and makes the recursion structural; indexing
an empty segment list panics. -/
def padOneByteScan (p : OggPage) : Nat → Nat → Except PErr Nat
  | 0, _ => .error (.rustPanic .indexOutOfBounds)
  | _rem + 1, i =>
    if ¬ padOneByteCandidate p i then .ok i
    else if p.segments.length ≤ i + 1 then .error (.rustError .paddingImpossible)
    else padOneByteScan p _rem (i + 1)

/-- `OggPage::pad_one_byte` (src/ogg_page.rs): scan for a segment with
the inverted candidate test above, then convert that packet to code 3
(adding a zero pad count when it already is code 3). -/
def OggPage.pad_one_byte (p : OggPage) : Except PErr OggPage := do
  let i ← padOneByteScan p p.segments.length 0
  if (p.segments.getD i default).framepacking = 3 then
    p.convert_packet_to_framepacking_three_and_pad i true 0
  else
    p.convert_packet_to_framepacking_three_and_pad i false 0

/-- The backwards scan at the start of `OggPage::pad`: walk down from
`idx` to the segment that begins the final packet.  `checked_sub`'s
`expect` panics when index 0 is reached while still looking. -/
def findLastPacketStartGo (segs : List OpusPacket) : Nat → Except PErr Nat
  | 0 =>
    if (segs.getD 0 default).first_packet then .ok 0
    else .error (.rustPanic .expectNoPacketStart)
  | i + 1 =>
    if (segs.getD (i + 1) default).first_packet then .ok (i + 1)
    else if i = 0 ∧ (segs.getD 0 default).first_packet = false then
      .error (.rustError .noPacketStart)
    else findLastPacketStartGo segs i

/-- `OggPage::pad` (src/ogg_page.rs), with structural fuel for the
general recursion: find the final packet, compute the shortfall,
dispatch on `calc_actual_padding_value`, recursing through
`pad_one_byte` (OTHER_PACKET_NEEDED) or a halved target
(TOO_MANY_SEGMENTS); the non-negative case carries
`assert_eq!(self.get_page_size(), pad_to)`. -/
def OggPage.pad : Nat → OggPage → Nat → Option Nat → Except PErr OggPage
  | 0, _, _, _ => .error .outOfFuel
  | fuel + 1, p, pad_to, idx_offset => do
    let start ←
      match idx_offset with
      | some offset => pure offset
      | none =>
        match p.segments.length with
        | 0 => .error (.rustError .segmentsEmpty)
        | n + 1 => pure n
    let idx ← findLastPacketStartGo p.segments start
    let pad_count : Int := (pad_to : Int) - (p.get_page_size : Int)
    let actual_padding ← p.calc_actual_padding_value idx pad_count
    if actual_padding = DO_NOTHING then .ok p
    else if actual_padding = ONLY_CONVERT_FRAMEPACKING then
      p.convert_packet_to_framepacking_three_and_pad idx false 0
    else if actual_padding = OTHER_PACKET_NEEDED then do
      let p1 ← p.pad_one_byte
      OggPage.pad fuel p1 pad_to none
    else if actual_padding = TOO_MANY_SEGMENTS then
      match idx with
      | 0 => .error (.rustPanic .expectIndexUnderflow)
      | i + 1 => do
        let p1 ← OggPage.pad fuel p (pad_to - (pad_count / 2).toNat) (some i)
        OggPage.pad fuel p1 pad_to none
    else if 0 ≤ actual_padding then do
      let p1 ← p.convert_packet_to_framepacking_three_and_pad idx true actual_padding.toNat
      if p1.get_page_size = pad_to then .ok p1
      else .error (.rustPanic .assertPageSize)
    else .error (.rustError .unexpectedPaddingValue)

/-- `OggPage::correct_values`: reject pages with more than 255
segments, recompute the granule position as `last_granule` plus the
granule contributions of the first-packet segments (zero on header
pages 0 and 1), refresh the segment count and the checksum. -/
def OggPage.correct_values (p : OggPage) (last_granule : Nat) : Except PErr OggPage :=
  if 255 < p.segments.length then .error (.rustError .tooManySegments)
  else
    let granule :=
      if p.page_no ≠ 0 ∧ p.page_no ≠ 1 then
        (p.segments.filter (·.first_packet)).foldl (fun a s => a + s.granule) 0
      else 0
    let p1 := { p with granule_position := last_granule + granule,
                       segment_count := p.segments.length }
    .ok { p1 with checksum := p1.calc_checksum }

/-- `OggPage::from_page`: clone the header fields, zero the checksum,
start with no segments. -/
def OggPage.from_page (o : OggPage) : OggPage :=
  { version := o.version, page_type := o.page_type,
    granule_position := o.granule_position, serial_no := o.serial_no,
    page_no := o.page_no, checksum := 0, segment_count := 0, segments := [] }

/-! ## Stream rewriter (src/converter.rs) -/

/-- Fuel handed to every `pad` call inside the resize pipeline. -/
def padFuel : Nat := 1000

/-- The body of `Converter::resize_pages`'s `while` loop, with
structural fuel.  Returns the emitted pages, the page under
construction and the current `max_size` when both the source list and
`current_page` are exhausted.  Note the two behaviours of the Rust
source this models faithfully: the fitting branch pushes
`seg_count` CLONES of the source page's FIRST segment
(`page.segments.first().cloned()`) and never removes anything from the
source page, and the emitting branch drops the taken source page on
the floor. -/
def resizeLoop (template : OggPage) (max_page_size last_granule : Nat) :
    Nat → List OggPage → Option OggPage → OggPage → Nat → Nat → List OggPage →
    Except PErr (List OggPage × OggPage × Nat)
  | 0, _, _, _, _, _, _ => .error .outOfFuel
  | fuel + 1, old_pages, current_page, new_page, page_no, max_size, acc =>
    let go (page : OggPage) (rest : List OggPage) :
        Except PErr (List OggPage × OggPage × Nat) := do
      let size := page.get_size_of_first_opus_packet
      let seg_count := page.get_segment_count_of_first_opus_packet
      if size + seg_count + new_page.get_page_size ≤ max_size
          ∧ new_page.segments.length + seg_count < 256 then
        match page.segments with
        | [] =>
          resizeLoop template max_page_size last_granule fuel rest none new_page
            page_no max_size acc
        | s0 :: _ =>
          let pushed := { new_page with
            segments := new_page.segments ++ List.replicate seg_count s0 }
          resizeLoop template max_page_size last_granule fuel rest (some page) pushed
            page_no max_size acc
      else do
        let padded ← OggPage.pad padFuel new_page max_size none
        let corrected ← padded.correct_values last_granule
        let fresh := { OggPage.from_page template with page_no := page_no + 1 }
        resizeLoop template max_page_size last_granule fuel rest none fresh
          (page_no + 1) max_page_size (acc ++ [corrected])
    match current_page, old_pages with
    | none, [] => .ok (acc, new_page, max_size)
    | some page, rest => go page rest
    | none, page :: rest => go page rest

/-- `Converter::resize_pages` (src/converter.rs): run the loop above
starting from a fresh template clone, then pad, correct and append the
final page under construction when it is non-empty, setting the
end-of-stream flag when requested. -/
def resize_pages (old_pages : List OggPage) (max_page_size first_page_size : Nat)
    (template_page : OggPage) (last_granule : Nat) (start_no : Nat)
    (set_last_page_flag : Bool) (fuel : Nat) : Except PErr (List OggPage) := do
  let new_page0 := { OggPage.from_page template_page with page_no := start_no }
  let (new_pages, last, max_size) ←
    resizeLoop template_page max_page_size last_granule fuel old_pages none new_page0
      start_no first_page_size []
  if last.segments.isEmpty then .ok new_pages
  else do
    let last := if set_last_page_flag then { last with page_type := 4 } else last
    let padded ← OggPage.pad padFuel last max_size none
    let corrected ← padded.correct_values last_granule
    .ok (new_pages ++ [corrected])

/-- `Converter::check_identification_header` (src/converter.rs): when
the page has a first segment, slice its first 18 bytes (a Rust panic
when the segment is shorter) and check magic, version, channel count
and sample rate; a page with NO segments passes without any check. -/
def check_identification_header (page : OggPage) : Except PErr Unit :=
  match page.segments with
  | [] => .ok ()
  | segment :: _ =>
    if segment.data.length < 18 then .error (.rustPanic .indexOutOfBounds)
    else
      let d := segment.data
      let magic := d.take 8
      let version := d.getD 8 0
      let channels := d.getD 9 0
      let sample_rate :=
        d.getD 12 0 + 256 * d.getD 13 0 + 65536 * d.getD 14 0 + 16777216 * d.getD 15 0
      if magic ≠ [0x4F, 0x70, 0x75, 0x73, 0x48, 0x65, 0x61, 0x64] then
        .error (.rustError .invalidOpusFile)
      else if version ≠ 1 then .error (.rustError .invalidOpusFile)
      else if channels ≠ 2 then .error (.rustError .onlyStereoSupported)
      else if sample_rate ≠ 48000 then .error (.rustError .wrongSampleRate)
      else .ok ()

/-! ## Tonie header (src/converter.rs `fix_tonie_header`) -/

/-- Modelled from the spec: the protobuf `TonieHeader` message.  The
`.proto` file and the generated codec (`src/tonie_header/`) are not in
the repository sources; §3 of the spec lists the five fields in field
order (`data_hash` bytes, `data_length` u32, `timestamp` u32,
`chapter_pages` repeated u32, `padding` bytes). -/
structure TonieHeader where
  dataHash : List Nat
  dataLength : Nat
  timestamp : Nat
  chapterPages : List Nat
  padding : List Nat
deriving DecidableEq

/-- Protobuf base-128 varint, least-significant group first.  The
first argument is structural fuel; `n` itself is always enough. -/
def varintAux : Nat → Nat → List Nat
  | 0, n => [n % 128]
  | fuel + 1, n => if n < 128 then [n] else (n % 128 + 128) :: varintAux fuel (n / 128)

def varint (n : Nat) : List Nat := varintAux n n

/-- Modelled from the spec: a protobuf length-delimited field (tag
byte, varint length, payload), omitted when the payload is empty. -/
def lenDelimField (tag : Nat) (payload : List Nat) : List Nat :=
  if payload.isEmpty then [] else tag :: varint payload.length ++ payload

/-- Modelled from the spec: a protobuf varint field, omitted when the
value is zero. -/
def varintField (tag : Nat) (v : Nat) : List Nat :=
  if v = 0 then [] else tag :: varint v

/-- Modelled from the spec: a packed repeated varint field. -/
def packedField (tag : Nat) (vs : List Nat) : List Nat :=
  if vs.isEmpty then [] else lenDelimField tag (vs.map varint).flatten

/-- Modelled from the spec: `TonieHeader::write_to_bytes`, the protobuf
wire encoding of the five fields with tags 1..5 (this layout reproduces
the reference container byte counts: a header with a 20-byte hash,
`data_length = 2498560`, `timestamp = 1739039539`, `chapter_pages =
[0]` and 4053 padding bytes serializes to exactly 4092 bytes). -/
def TonieHeader.write_to_bytes (h : TonieHeader) : List Nat :=
  lenDelimField 0x0A h.dataHash ++ varintField 0x10 h.dataLength
    ++ varintField 0x18 h.timestamp ++ packedField 0x22 h.chapterPages
    ++ lenDelimField 0x2A h.padding

/-- The header built by `Converter::fix_tonie_header` before the
padding fixup: 0x100 zero padding bytes. -/
def initialTonieHeader (dataHash : List Nat) (dataLength timestamp : Nat)
    (chapters : List Nat) : TonieHeader :=
  { dataHash := dataHash, dataLength := dataLength, timestamp := timestamp,
    chapterPages := chapters, padding := List.replicate 0x100 0 }

/-- `Converter::fix_tonie_header` (src/converter.rs), data part:
serialize with 256 padding bytes, recompute the padding length as
`0xFFC − serialized_length + 0x100`, re-serialize.  (The caller then
writes a 4-byte big-endian length prefix followed by these bytes.) -/
def fix_tonie_header_bytes (dataHash : List Nat) (dataLength timestamp : Nat)
    (chapters : List Nat) : List Nat :=
  let header := (initialTonieHeader dataHash dataLength timestamp chapters).write_to_bytes
  let pad := 0xFFC - header.length + 0x100
  ({ initialTonieHeader dataHash dataLength timestamp chapters with
     padding := List.replicate pad 0 } : TonieHeader).write_to_bytes

/-! ## Concrete packets and pages used in the theorems below -/

/-- A page with one first-packet segment carrying ten payload bytes. -/
def c1SamplePage : OggPage :=
  { page_no := 2, segment_count := 1,
    segments := [{ size := 10, data := List.replicate 10 7, first_packet := true }] }

/-- Projection: the segment payloads of the pages of a resize run. -/
def segDatas (r : Except PErr (List OggPage)) : Option (List (List (List Nat))) :=
  r.toOption.map (·.map fun pg => pg.segments.map (·.data))

/-- Projection: the granule positions of the pages of a resize run. -/
def granules (r : Except PErr (List OggPage)) : Option (List Nat) :=
  r.toOption.map (·.map (·.granule_position))

/-- Source packet `a`: one 10-byte segment, TOC 0x80 (CELT config 16,
code 0), attributes as the parser derives them (granule 2.5 ms · 48). -/
def pktA : OpusPacket :=
  { size := 10, data := 0x80 :: List.replicate 9 1, first_packet := true,
    framepacking := 0, padding := some 0, frame_count := some 1, granule := 120 }

/-- Source packet `b`: one 20-byte segment, TOC 0x90. -/
def pktB : OpusPacket :=
  { size := 20, data := 0x90 :: List.replicate 19 2, first_packet := true,
    framepacking := 0, padding := some 0, frame_count := some 1, granule := 240 }

/-- A source page holding the two packets `a` then `b`. -/
def srcAB : OggPage := { page_no := 7, segments := [pktA, pktB] }

/-- The template page captured by the rewriter. -/
def sampleTemplate : OggPage := { serial_no := 1739039539 }

/-- A 200-byte single-segment source packet with TOC 0x98 (CELT config
19, 20 ms frames, granule 960). -/
def c4s1 : OpusPacket :=
  { size := 200, data := 0x98 :: List.replicate 199 0, first_packet := true,
    framepacking := 0, padding := some 0, frame_count := some 1, granule := 120 * 8 }

/-- A 150-byte single-segment source packet with TOC 0x80 (granule 120). -/
def c4s2 : OpusPacket :=
  { size := 150, data := 0x80 :: List.replicate 149 0, first_packet := true,
    framepacking := 0, padding := some 0, frame_count := some 1, granule := 120 }

def c4srcA : OggPage := { page_no := 7, segments := [c4s1] }
def c4srcB : OggPage := { page_no := 8, segments := [c4s2] }

/-- The page built by `create_padding_test_page` in
src/tests/test_ogg_page.rs: one unpadded first-packet segment of ten
bytes, TOC byte 0x00. -/
def padding_test_page : OggPage :=
  { version := 0, page_type := 2, serial_no := 12345, page_no := 2, segment_count := 1,
    segments := [{ size := 10, data := [0, 49, 50, 51, 52, 53, 54, 55, 56, 57],
                   first_packet := true, frame_count := some 1 }] }

/-- A small page whose last segment begins a packet, for the padding
over-size witness. -/
def c10Page : OggPage :=
  { page_no := 2, segment_count := 1,
    segments := [{ size := 12, data := List.replicate 12 3, first_packet := true,
                   frame_count := some 1 }] }

/-- A code-3 packet whose padding attribute is zero. -/
def c7Packet : OpusPacket :=
  { framepacking := 3, padding := some 0, frame_count := some 2, size := 5,
    data := [0x83, 2, 9, 9, 9], first_packet := true }

/-- A code-3 packet whose padding attribute says four padding bytes. -/
def c7PaddedPacket : OpusPacket :=
  { framepacking := 3, padding := some 4, frame_count := some 2, size := 4,
    data := [0x83, 0x42, 4, 9], first_packet := true }

/-- A page with no segments at all. -/
def c9EmptyPage : OggPage := { segments := [] }

/-- A page whose first segment has only five data bytes. -/
def c9ShortPage : OggPage :=
  { segments := [{ size := 5, data := [0x4F, 0x70, 0x75, 0x73, 0x48],
                   first_packet := true }] }

/-- A valid 18-byte OpusHead identification segment: magic, version 1,
2 channels, pre-skip 0x0138, sample rate 48000 (LE), zero gain. -/
def c9GoodSeg : OpusPacket :=
  { size := 18, first_packet := true,
    data := [0x4F, 0x70, 0x75, 0x73, 0x48, 0x65, 0x61, 0x64,
             1, 2, 0x38, 0x01, 0x80, 0xBB, 0, 0, 0, 0] }

def c9GoodPage : OggPage := { segments := [c9GoodSeg] }

/-- The reference container's 20-byte data hash. -/
def c6SampleHash : List Nat :=
  [0xA8, 0xBA, 0x6F, 0xF5, 0xBD, 0xA7, 0x94, 0xAD, 0x1D, 0x58,
   0x1B, 0x04, 0x59, 0x75, 0x2C, 0x4A, 0xF2, 0xAF, 0x79, 0x49]

/-! ## Supporting lemmas -/

theorem exceptOkBind {α β : Type} (a : α) (f : α → Except PErr β) :
    (Except.ok a : Except PErr α) >>= f = f a := rfl

theorem exceptErrorBind {α β : Type} (e : PErr) (f : α → Except PErr β) :
    (Except.error e : Except PErr α) >>= f = Except.error e := rfl

theorem varintAux_small (fuel n : Nat) (h : n < 128) : varintAux fuel n = [n] := by
  cases fuel with
  | zero => simp [varintAux, Nat.mod_eq_of_lt h]
  | succ f => simp [varintAux, h]

/-- A varint in [128, 16384) occupies exactly two bytes. -/
theorem varint_length_two (n : Nat) (h1 : 128 ≤ n) (h2 : n < 16384) :
    (varint n).length = 2 := by
  unfold varint
  obtain ⟨m, rfl⟩ : ∃ m, n = m + 1 := ⟨n - 1, by omega⟩
  rw [varintAux, if_neg (by omega)]
  rw [varintAux_small m ((m + 1) / 128) ((Nat.div_lt_iff_lt_mul (by norm_num)).mpr (by omega))]
  rfl

/-- Size of a length-delimited field holding `n` zero bytes whose
length varint is two bytes wide. -/
theorem lenDelimField_replicate_length (tag n : Nat) (hn : n ≠ 0)
    (hv : (varint n).length = 2) :
    (lenDelimField tag (List.replicate n 0)).length = 3 + n := by
  have he : (List.replicate n 0).isEmpty = false := by
    cases n with
    | zero => omega
    | succ k => rfl
  simp [lenDelimField, he, hv]
  omega

/-- The serialized TonieHeader length is the sum of its five field
encodings. -/
theorem tonieHeader_write_length (h : TonieHeader) :
    h.write_to_bytes.length =
      (lenDelimField 0x0A h.dataHash).length + (varintField 0x10 h.dataLength).length
        + (varintField 0x18 h.timestamp).length + (packedField 0x22 h.chapterPages).length
        + (lenDelimField 0x2A h.padding).length := by
  simp [TonieHeader.write_to_bytes]
  omega

/-- ORing 0x40 into a byte makes its bit 6 read as set. -/
theorem bit6_of_or64 (b : Nat) : ((b ||| 64) >>> 6) &&& 1 = 1 := by
  have ht : (b ||| 64).testBit 6 = true := by
    rw [Nat.testBit_or]
    have h64 : Nat.testBit 64 6 = true := by decide
    simp [h64]
  rw [Nat.testBit_to_div_mod] at ht
  simp only [decide_eq_true_eq] at ht
  rw [Nat.and_one_is_mod, Nat.shiftRight_eq_div_pow]
  exact ht

/-- The padding decode loop stops as soon as the last byte read is not
255. -/
theorem paddingLoop_stop (v : Nat) (l : List Nat) (t : Nat) (hv : v ≠ 255) :
    paddingLoop v l t = .ok t := by
  cases l <;> simp [paddingLoop, hv]

theorem padCountBytesAux_low (fuel v : Nat) (h : v ≤ 254) :
    padCountBytesAux fuel v = [v] := by
  cases fuel with
  | zero => rfl
  | succ f => simp [padCountBytesAux]; omega

set_option maxRecDepth 4000 in
/-- Decoding an encoded pad count that is entered with a previous byte
of 255 adds `v − 1` to the running total. -/
theorem paddingLoop_padCountBytesAux (fuel : Nat) :
    ∀ v t suffix, 1 ≤ v → v ≤ fuel + 1 →
      paddingLoop 255 (padCountBytesAux fuel v ++ suffix) t = .ok (t + v - 1) := by
  induction fuel with
  | zero =>
    intro v t suffix h1 h2
    have hv : v = 1 := by omega
    subst hv
    show paddingLoop 255 (1 :: suffix) t = .ok (t + 1 - 1)
    rw [paddingLoop, if_pos rfl, if_neg (by omega)]
    rw [paddingLoop_stop 1 suffix (t + (1 - 1)) (by omega)]
    congr 1
  | succ f ih =>
    intro v t suffix h1 h2
    by_cases hv : v ≤ 254
    · rw [padCountBytesAux_low _ v hv]
      show paddingLoop 255 (v :: suffix) t = .ok (t + v - 1)
      rw [paddingLoop, if_pos rfl, if_neg (by omega)]
      rw [paddingLoop_stop v suffix (t + (v - 1)) (by omega)]
      congr 1
      omega
    · rw [padCountBytesAux, if_pos (by omega)]
      show paddingLoop 255 (255 :: (padCountBytesAux f (v - 254) ++ suffix)) t
          = .ok (t + v - 1)
      rw [paddingLoop, if_pos rfl, if_neg (by omega)]
      rw [ih (v - 254) (t + (255 - 1)) suffix (by omega) (by omega)]
      congr 1
      omega

set_option maxRecDepth 4000 in
/-- The pad-count encoding of `set_pad_count` decodes, through
`get_padding`'s loop, back to the encoded count, independent of the
bytes following the count sequence. -/
theorem paddingLoop_padCountBytes (count : Nat) (suffix : List Nat) :
    ∃ c cs, padCountBytes count = c :: cs
      ∧ paddingLoop c (cs ++ suffix) c = .ok count := by
  by_cases h : count ≤ 254
  · refine ⟨count, [], padCountBytesAux_low count count h,
      paddingLoop_stop count suffix count (by omega)⟩
  · obtain ⟨m, hm⟩ : ∃ m, count = m + 1 := ⟨count - 1, by omega⟩
    refine ⟨255, padCountBytesAux m (count - 254), ?_, ?_⟩
    · unfold padCountBytes
      rw [hm, padCountBytesAux, if_pos (by omega), ← hm]
    · rw [paddingLoop_padCountBytesAux m (count - 254) 255 suffix (by omega) (by omega)]
      congr 1
      omega

/-! ## Claim theorems -/

/-- Claim C1 (code bug): `OggPage::write_page` feeds the running SHA-1
hasher only the header-and-segment-table bytes.  On a page with a
ten-byte segment payload, the hashed bytes differ from the written
bytes exactly by the payload, so the digest cannot cover every byte
written past offset 0x1000 as the claim requires (the per-segment
hasher update is commented out in src/ogg_page.rs with
`//TODO fix this!`). -/
theorem write_page_hash_omits_payload :
    (c1SamplePage.write_page).2 ++ List.replicate 10 7 = (c1SamplePage.write_page).1
    ∧ (c1SamplePage.write_page).2 ≠ (c1SamplePage.write_page).1 :=
  ⟨by decide, by decide⟩

/-- Claim C2 (code bug): feeding `resize_pages` one source page holding
the two one-segment packets `a` (10 bytes) then `b` (20 bytes) with
`max_size = 50` produces a single page containing packet `a` twice
(the second copy converted to code 3 by padding) and packet `b`
nowhere: the fitting branch clones the source page's first segment
without consuming it, and the emitting branch drops the source page. -/
theorem resize_pages_duplicates_and_drops_packets :
    segDatas (resize_pages [srcAB] 50 50 sampleTemplate 0 2 true 20)
      = some [[0x80 :: List.replicate 9 1, 0x83 :: 1 :: List.replicate 9 1]]
    ∧ pktB.data ∉ ((segDatas (resize_pages [srcAB] 50 50 sampleTemplate 0 2 true 20)).getD
        []).flatten :=
  ⟨by decide, by decide⟩

set_option maxRecDepth 100000 in
/-- Claim C4 (code bug): a resize run with the rewriter's real page
sizes (first page 0xE00, later pages 0x1000) over two source pages
whose packets carry granules 960 and 120 emits consecutive audio pages
with granule positions 16320 then 3120: `correct_values` is always
called with the track-start granule, never the previous page's, so
granule positions are not monotone and not carried forward. -/
theorem resize_pages_granule_not_monotone :
    granules (resize_pages [c4srcA, c4srcB] 0x1000 0xE00 sampleTemplate 0 2 true 100)
      = some [16320, 3120]
    ∧ ¬ (3120 ≥ 16320) :=
  ⟨by decide, by decide⟩

/-- Claim C5 (code bug): on the page built by the repository's own
`create_padding_test_page` test helper, segment 0 satisfies all three
candidate conditions of `pad_one_byte` (first-packet, no cached
padding, packet size mod 255 below 254), yet `pad_one_byte` returns
the PaddingImpossible error: the scan's condition is inverted — it
breaks on segments that FAIL the test and errors when every segment
passes it.  The repository test `test_pad_one_byte` expects success. -/
theorem pad_one_byte_rejects_candidate_page :
    padOneByteCandidate padding_test_page 0 = true
    ∧ padding_test_page.pad_one_byte = .error (.rustError .paddingImpossible) :=
  ⟨by decide, rfl⟩

/-- Claim C6 (confirmed, spec-modelled protobuf codec): for any
finalized header whose initial serialization (with 256 padding bytes)
fits in the 4092-byte body area, recomputing the padding as
`0xFFC − serialized_length + 0x100` and re-serializing yields a body of
exactly 4092 bytes, which the 4-byte length prefix completes to
4096. -/
theorem fix_tonie_header_body_is_4092_bytes (dataHash : List Nat)
    (dataLength timestamp : Nat) (chapters : List Nat)
    (_hh : dataHash.length = 20)
    (hlen : ((initialTonieHeader dataHash dataLength timestamp chapters).write_to_bytes).length
            ≤ 0xFFC) :
    (fix_tonie_header_bytes dataHash dataLength timestamp chapters).length = 0xFFC
    ∧ 4 + (fix_tonie_header_bytes dataHash dataLength timestamp chapters).length = 0x1000 := by
  have h256 : (lenDelimField 0x2A (List.replicate 0x100 0)).length = 259 :=
    lenDelimField_replicate_length 0x2A 0x100 (by norm_num) (by decide)
  have hL0 : ((initialTonieHeader dataHash dataLength timestamp chapters).write_to_bytes).length
      = (lenDelimField 0x0A dataHash).length + (varintField 0x10 dataLength).length
        + (varintField 0x18 timestamp).length + (packedField 0x22 chapters).length + 259 := by
    rw [tonieHeader_write_length]
    simp only [initialTonieHeader]
    rw [h256]
  set L0 : Nat :=
    ((initialTonieHeader dataHash dataLength timestamp chapters).write_to_bytes).length
    with hL0def
  have hfix : fix_tonie_header_bytes dataHash dataLength timestamp chapters
      = (({ dataHash := dataHash, dataLength := dataLength, timestamp := timestamp,
            chapterPages := chapters,
            padding := List.replicate (0xFFC - L0 + 0x100) 0 } : TonieHeader)).write_to_bytes :=
    rfl
  have hpadval : 0xFFC - L0 + 0x100 = 4348 - L0 := by omega
  have hpadfield : (lenDelimField 0x2A (List.replicate (0xFFC - L0 + 0x100) 0)).length
      = 3 + (0xFFC - L0 + 0x100) := by
    apply lenDelimField_replicate_length
    · omega
    · rw [hpadval]
      exact varint_length_two _ (by omega) (by omega)
  have hmain : (fix_tonie_header_bytes dataHash dataLength timestamp chapters).length = 0xFFC := by
    rw [hfix, tonieHeader_write_length]
    simp only
    rw [hpadfield]
    omega
  exact ⟨hmain, by omega⟩

set_option maxRecDepth 40000 in
/-- Witness for C6: the reference container's header values (20-byte
hash, data length 2498560, timestamp 1739039539, chapters [0]) satisfy
the hypotheses, and the finalized body is 4092 bytes. -/
theorem fix_tonie_header_body_is_4092_bytes_witness :
    c6SampleHash.length = 20
    ∧ ((initialTonieHeader c6SampleHash 2498560 1739039539 [0]).write_to_bytes).length ≤ 0xFFC
    ∧ (fix_tonie_header_bytes c6SampleHash 2498560 1739039539 [0]).length = 0xFFC :=
  ⟨by decide, by decide,
    (fix_tonie_header_body_is_4092_bytes c6SampleHash 2498560 1739039539 [0]
      (by decide) (by decide)).1⟩

/-- Claim C7 (confirmed): on a code-3 packet whose cached padding
attribute is zero (and whose data has the TOC and frame-count bytes),
`set_pad_count` succeeds for every count, and re-deriving the padding
attribute from the produced bytes with `get_padding` returns exactly
that count; a packet whose padding attribute is positive is rejected
with the PacketAlreadyPadded error. -/
theorem set_pad_count_roundtrip :
    (∀ (p : OpusPacket) (count : Nat), p.framepacking = 3 → p.padding = some 0 →
        2 ≤ p.data.length →
        ∃ p', p.set_pad_count count = .ok p' ∧ p'.get_padding = .ok count)
    ∧ (∀ (p : OpusPacket) (count k : Nat), p.framepacking = 3 → p.padding = some (k + 1) →
        p.set_pad_count count = .error (.rustError .packetAlreadyPadded)) := by
  constructor
  · intro p count hfp hpad hlen
    match hdata : p.data, hlen with
    | b0 :: b1 :: rest, _ =>
      obtain ⟨c, cs, hbytes, hloop⟩ := paddingLoop_padCountBytes count rest
      refine ⟨{ p with data := b0 :: (b1 ||| 0b01000000) :: (padCountBytes count ++ rest) },
        ?_, ?_⟩
      · rw [OpusPacket.set_pad_count, if_neg (by simp [hfp]), if_neg (by simp [hpad]), hdata]
      · rw [OpusPacket.get_padding]
        simp only
        rw [if_neg (by simp [hfp]), hbytes]
        show (if ((b1 ||| 0b01000000) >>> 6) &&& 1 = 0 then Except.ok 0
              else paddingLoop c (cs ++ rest) c) = Except.ok count
        rw [if_neg (by rw [bit6_of_or64 b1]; omega)]
        exact hloop
  · intro p count k hfp hpad
    rw [OpusPacket.set_pad_count, if_neg (by simp [hfp]), if_pos (by simp [hpad])]

/-- Witness for C7: a concrete code-3 packet round-trips a pad count of
300, and a concrete already-padded packet is rejected. -/
theorem set_pad_count_roundtrip_witness :
    (c7Packet.framepacking = 3 ∧ c7Packet.padding = some 0 ∧ 2 ≤ c7Packet.data.length
      ∧ ∃ p', c7Packet.set_pad_count 300 = .ok p' ∧ p'.get_padding = .ok 300)
    ∧ (c7PaddedPacket.framepacking = 3 ∧ c7PaddedPacket.padding = some 4
      ∧ c7PaddedPacket.set_pad_count 5 = .error (.rustError .packetAlreadyPadded)) :=
  ⟨⟨rfl, rfl, by decide, set_pad_count_roundtrip.1 c7Packet 300 rfl rfl (by decide)⟩,
   ⟨rfl, rfl, set_pad_count_roundtrip.2 c7PaddedPacket 5 3 rfl rfl⟩⟩

/-- Claim C8 (corrected): `crc32` of the vector listed by the spec is
1405232603, not the spec's 4269137275 — the listed vector is a
mistyped copy of the reference container's data-hash bytes, whose CRC
is indeed 4269137275 (second conjunct). -/
theorem crc32_reference_values :
    crc32 [0xBA, 0xCA, 0x6F, 0xF5, 0xBB, 0xA7, 0x94, 0xAD, 0x1D, 0x58,
           0x1B, 0x04, 0x59, 0x75, 0x2C, 0x4A, 0xF2, 0xAF, 0x79, 0x49] = 1405232603
    ∧ crc32 c6SampleHash = 4269137275 :=
  ⟨by decide, by decide⟩

/-- Counterexample for C8: the CRC reference equation of the spec is
false on the code's crc32. -/
theorem crc32_spec_reference_value_refuted :
    crc32 [0xBA, 0xCA, 0x6F, 0xF5, 0xBB, 0xA7, 0x94, 0xAD, 0x1D, 0x58,
           0x1B, 0x04, 0x59, 0x75, 0x2C, 0x4A, 0xF2, 0xAF, 0x79, 0x49] ≠ 4269137275 := by
  decide

/-- Claim C9 (corrected): `check_identification_header` succeeds on a
page with no segments, panics (slice out of range) when the first
segment is shorter than 18 bytes, and otherwise returns success
exactly when magic, version, channel count and sample rate are all
valid. -/
theorem check_identification_header_behavior (page : OggPage) :
    (page.segments = [] → check_identification_header page = .ok ())
    ∧ (∀ s ss, page.segments = s :: ss → s.data.length < 18 →
        check_identification_header page = .error (.rustPanic .indexOutOfBounds))
    ∧ (∀ s ss, page.segments = s :: ss → 18 ≤ s.data.length →
        (check_identification_header page = .ok () ↔
          (s.data.take 8 = [0x4F, 0x70, 0x75, 0x73, 0x48, 0x65, 0x61, 0x64]
            ∧ s.data.getD 8 0 = 1 ∧ s.data.getD 9 0 = 2
            ∧ s.data.getD 12 0 + 256 * s.data.getD 13 0 + 65536 * s.data.getD 14 0
                + 16777216 * s.data.getD 15 0 = 48000))) := by
  refine ⟨?_, ?_, ?_⟩
  · intro h
    simp [check_identification_header, h]
  · intro s ss h hlt
    simp [check_identification_header, h, hlt]
  · intro s ss h hge
    simp only [check_identification_header, h]
    rw [if_neg (by omega)]
    split_ifs with h1 h2 h3 h4 <;> simp_all [List.getD_eq_getElem?_getD]

/-- Counterexample for C9: the claim says validation fails (rather
than succeeding or panicking) on a page with no segments or a short
first segment; in fact it succeeds on the former and panics on the
latter. -/
theorem check_identification_header_claim_refuted :
    check_identification_header c9EmptyPage = .ok ()
    ∧ check_identification_header c9ShortPage = .error (.rustPanic .indexOutOfBounds) :=
  ⟨rfl, rfl⟩

/-- Witness for C9: the amended behavior at a page with no segments and
at a valid 18-byte OpusHead page. -/
theorem check_identification_header_behavior_witness :
    check_identification_header c9EmptyPage = .ok ()
    ∧ check_identification_header c9GoodPage = .ok () :=
  ⟨(check_identification_header_behavior c9EmptyPage).1 rfl,
   ((check_identification_header_behavior c9GoodPage).2.2 c9GoodSeg [] rfl (by decide)).mpr
     ⟨by decide, by decide, by decide, by decide⟩⟩

/-- Claim C10 (confirmed): calling `pad` on a page whose size exceeds
the target panics through the `assert!(bytes_needed >= 0, "Page is
already too large! ...")` in `calc_actual_padding_value` instead of
returning an error, provided the backwards scan for the final packet
start succeeds (which needs a first-packet segment). -/
theorem pad_panics_on_too_large_page (p : OggPage) (pad_to fuel idx : Nat)
    (hne : p.segments ≠ [])
    (hscan : findLastPacketStartGo p.segments (p.segments.length - 1) = .ok idx)
    (hbig : pad_to < p.get_page_size) :
    OggPage.pad (fuel + 1) p pad_to none = .error (.rustPanic .pageAlreadyTooLarge) := by
  obtain ⟨n, hn⟩ : ∃ n, p.segments.length = n + 1 := by
    cases hl : p.segments.length with
    | zero => exact absurd (List.length_eq_zero.mp hl) hne
    | succ k => exact ⟨k, rfl⟩
  have hcalc : p.calc_actual_padding_value idx ((pad_to : Int) - (p.get_page_size : Int))
      = .error (.rustPanic .pageAlreadyTooLarge) := by
    rw [OggPage.calc_actual_padding_value, if_pos (by omega)]
  have hscan' : findLastPacketStartGo p.segments n = .ok idx := by
    rw [show n = p.segments.length - 1 by omega]
    exact hscan
  rw [OggPage.pad]
  simp only [hn, pure_bind, hscan', exceptOkBind, hcalc, exceptErrorBind]

/-- Witness for C10: a 39-byte page padded to 30 bytes hits the
"already too large" panic. -/
theorem pad_panics_on_too_large_page_witness :
    c10Page.segments ≠ []
    ∧ findLastPacketStartGo c10Page.segments (c10Page.segments.length - 1) = .ok 0
    ∧ 30 < c10Page.get_page_size
    ∧ OggPage.pad 1 c10Page 30 none = .error (.rustPanic .pageAlreadyTooLarge) :=
  ⟨by decide, rfl, by decide,
   pad_panics_on_too_large_page c10Page 30 0 0 (by decide) rfl (by decide)⟩

end Audio2Tonie
